import Mathlib

/-!
Verification development for the Fusion Core API (src/app.py): the JWT-based
authentication core, consisting of the token codec, the token_required gate,
the login handler, and the gated endpoint handlers.

Times are modelled as unix-style integer seconds.  The jwt library calls
(jwt.encode / jwt.decode at app.py lines 27 and 47-50) are third-party code
not present in the repository; the codec is therefore modelled from the spec
(sections 4.1 and 6): a token is a signed payload carrying an optional user
claim and an optional integer expiry, the integrity tag is a deterministic
function of the secret and the serialized payload, and decode checks the tag
and then the expiry (failing when current time is at or past the expiry).
The textual base64url/JSON wire encoding is abstracted: a presented token
string is either the well-formed encoding of a signed token or garbage, and
the signature segment is kept as a literal string so that character-level
tampering is expressible.
-/

namespace FusionCore

/-- The identity context: the user claim carried inside a token
    (app.py lines 43-46 build it; line 28 extracts it). -/
structure UserData where
  username : String
  role : String
deriving DecidableEq, Repr

/-- Modelled from the spec: the JWT claims payload.  The source puts a
    user object and an exp timestamp in it (app.py lines 47-50); arbitrary
    presented tokens may lack either claim, so both are optional. -/
structure Payload where
  user : Option UserData
  exp : Option Int
deriving DecidableEq, Repr

/-- The process-wide secret key (app.py line 9). -/
def SECRET_KEY : String := "fusioncore-secret-key-2024"

/-- One record of the mock user database (app.py lines 12-16). -/
structure UserRec where
  password : String
  role : String
  username : String
deriving DecidableEq, Repr

/-- The mock user database (app.py lines 12-16). -/
def users : List (String × UserRec) :=
  [ ("admin", ⟨"admin123", "administrator", "admin"⟩),
    ("user", ⟨"user123", "analyst", "user"⟩),
    ("operator", ⟨"operator123", "operator", "operator"⟩) ]

/-- Dictionary lookup: username in users / users[username]. -/
def lookupStore (store : List (String × UserRec)) (u : String) : Option UserRec :=
  (store.find? (fun kv => kv.1 == u)).map (fun kv => kv.2)

/-- Modelled from the spec: serialization of the user claim, an injective
    textual rendering standing in for the JSON encoding. -/
def serializeUserData (u : UserData) : String :=
  "(username=" ++ u.username ++ ",role=" ++ u.role ++ ")"

/-- Modelled from the spec: serialization of the claims payload. -/
def serializePayload (p : Payload) : String :=
  "(user=" ++ (match p.user with
               | some u => serializeUserData u
               | none => "none") ++
  ",exp=" ++ (match p.exp with
              | some e => toString e
              | none => "none") ++ ")"

/-- Modelled from the spec: the symmetric integrity tag (HMAC-SHA256 in the
    source, via the jwt library with algorithm HS256), modelled as a
    deterministic tag over the secret and the serialized payload. -/
def signTag (secret : String) (p : Payload) : String :=
  "HS256(" ++ secret ++ "|" ++ serializePayload p ++ ")"

/-- A structurally well-formed signed token: a claims payload together with
    the signature segment presented for it. -/
structure SignedToken where
  payload : Payload
  sig : String
deriving DecidableEq, Repr

/-- The reasons jwt.decode can fail; the gate collapses all of them to the
    single InvalidToken response. -/
inductive DecodeErr
  | malformed
  | badSignature
  | expired
deriving DecidableEq, Repr

/-- Modelled from the spec: jwt.encode (app.py lines 47-50) signs the
    payload with the secret. -/
def jwtEncode (secret : String) (p : Payload) : SignedToken :=
  ⟨p, signTag secret p⟩

/-- Modelled from the spec: jwt.decode on a structurally well-formed token
    recomputes the integrity tag and compares it with the supplied one,
    then checks the expiry claim when present, failing when the current
    time is at or past the expiry. -/
def jwtDecode (secret : String) (now : Int) (t : SignedToken) :
    Except DecodeErr Payload :=
  if t.sig = signTag secret t.payload then
    match t.payload.exp with
    | some e => if e ≤ now then .error .expired else .ok t.payload
    | none => .ok t.payload
  else .error .badSignature

/-- Modelled from the spec: the wire form of a presented token string after
    optional scheme-prefix stripping.  Every string that is not the
    three-segment encoding of some signed token is garbage; the encoding of
    a signed token is never the empty string. -/
inductive TokenStr
  | garbage (s : String)
  | signed (t : SignedToken)
deriving DecidableEq, Repr

/-- Decoding a presented token string: garbage fails as malformed,
    a well-formed token goes through jwtDecode. -/
def decodeTokenStr (secret : String) (now : Int) : TokenStr → Except DecodeErr Payload
  | .garbage _ => .error .malformed
  | .signed t => jwtDecode secret now t

/-- The user claim the gate extracts on a successful decode
    (data[user] at app.py line 28); none when decode fails or the
    payload lacks the user claim. -/
def gateDecodeUser (secret : String) (now : Int) (b : TokenStr) : Option UserData :=
  match decodeTokenStr secret now b with
  | .ok p => p.user
  | .error _ => none

/-- A present Authorization header value: whether it starts with the
    Bearer prefix (app.py line 25), and the token string after stripping
    (the whole value when there is no prefix). -/
structure AuthHeader where
  bearer : Bool
  body : TokenStr
deriving DecidableEq, Repr

/-- Whether the raw header value is the empty string, which the check
    at app.py line 22 (if not token) treats like an absent header.
    The value is empty exactly when there is no Bearer prefix and the
    remaining token string is the empty garbage string. -/
def AuthHeader.isEmptyVal (h : AuthHeader) : Bool :=
  !h.bearer && (match h.body with
                | .garbage s => s.isEmpty
                | .signed _ => false)

/-- The outcome of a gated request: either a short-circuit JSON error
    response with an HTTP status, or the wrapped handler result. -/
inductive GateResult (ρ : Type)
  | errorResp (status : Nat) (message : String)
  | result (r : ρ)
deriving DecidableEq, Repr

/-- The token_required decorator (app.py lines 18-32): absent or empty
    header short-circuits with 401 Token is missing!; any failure on the
    decode path, including a missing user claim, is caught and normalized
    to 401 Token is invalid!; otherwise the wrapped handler runs on the
    extracted user claim and its result is returned unchanged. -/
def token_required {ρ : Type} (secret : String) (now : Int)
    (f : UserData → ρ) (header : Option AuthHeader) : GateResult ρ :=
  match header with
  | none => .errorResp 401 "Token is missing!"
  | some h =>
    if h.isEmptyVal then .errorResp 401 "Token is missing!"
    else
      match gateDecodeUser secret now h.body with
      | none => .errorResp 401 "Token is invalid!"
      | some u => .result (f u)

/-- The login response body and status (app.py lines 53-63). -/
structure LoginResp where
  status : Nat
  success : Bool
  token : Option SignedToken
  user : Option UserData
  message : Option String
deriving DecidableEq, Repr

/-- The single failure response of login (app.py lines 60-63). -/
def invalidCredentialsResp : LoginResp :=
  ⟨401, false, none, none, some "Invalid credentials"⟩

/-- Token lifetime: datetime.timedelta(hours=24) at app.py line 49,
    in seconds. -/
def validitySeconds : Int := 24 * 60 * 60

/-- The payload login mints for an identity context at issuance time iat
    (app.py lines 47-50). -/
def mkLoginPayload (I : UserData) (iat : Int) : Payload :=
  ⟨some I, some (iat + validitySeconds)⟩

/-- The login handler (app.py lines 34-63) against an explicit store and
    secret: on a username present in the store with matching password it
    mints a signed 24-hour token for the username and stored role;
    otherwise it returns the one 401 Invalid credentials response. -/
def loginWith (store : List (String × UserRec)) (secret : String)
    (now : Int) (username password : String) : LoginResp :=
  match lookupStore store username with
  | some rec =>
    if rec.password = password then
      let ud : UserData := ⟨username, rec.role⟩
      ⟨200, true, some (jwtEncode secret ⟨some ud, some (now + validitySeconds)⟩),
        some ud, none⟩
    else invalidCredentialsResp
  | none => invalidCredentialsResp

/-- The login handler on the process globals (app.py lines 34-63). -/
def login (now : Int) (username password : String) : LoginResp :=
  loginWith users SECRET_KEY now username password

/-- The fixed dashboard body (app.py lines 65-74). -/
structure DashboardBody where
  total_events : Nat
  total_correlations : Nat
  sigint_events : Nat
  buas_events : Nat
  recent_events : Nat
deriving DecidableEq, Repr

/-- The dashboard handler (app.py lines 67-74): ignores the identity
    context and returns the fixed counts object. -/
def get_dashboard (_current_user : UserData) : DashboardBody :=
  ⟨156, 42, 98, 58, 23⟩

/-- The health body (app.py line 186). -/
structure HealthBody where
  status : String
  service : String
deriving DecidableEq, Repr

/-- The health handler (app.py lines 184-186). -/
def health_check : HealthBody :=
  ⟨"healthy", "Fusion Core API"⟩

/-- The shared process state named by the concurrency claim: the mock user
    database and the configured secret key (app.py lines 9-16). -/
structure ServerState where
  userStore : List (String × UserRec)
  secretKey : String
deriving DecidableEq, Repr

/-- The state initialized at startup (app.py lines 9-16). -/
def initState : ServerState := ⟨users, SECRET_KEY⟩

/-- State-passing form of login: the source body (app.py lines 34-63) only
    reads the globals and contains no assignment to them, so the embedding
    threads the state through unchanged. -/
def loginS (s : ServerState) (now : Int) (username password : String) :
    ServerState × LoginResp :=
  (s, loginWith s.userStore s.secretKey now username password)

/-- State-passing form of a token_required gate check around an arbitrary
    handler: the decorator body (app.py lines 18-32) only reads the secret
    and contains no assignment to the globals. -/
def gateS {ρ : Type} (s : ServerState) (now : Int) (f : UserData → ρ)
    (header : Option AuthHeader) : ServerState × GateResult ρ :=
  (s, token_required s.secretKey now f header)

/-- State-passing form of the gated dashboard endpoint
    (app.py lines 65-74). -/
def dashboardS (s : ServerState) (now : Int) (header : Option AuthHeader) :
    ServerState × GateResult DashboardBody :=
  gateS s now get_dashboard header

/-- State-passing form of the health endpoint (app.py lines 184-186). -/
def healthS (s : ServerState) : ServerState × HealthBody :=
  (s, health_check)

/-- C1: encoding any identity context with the process secret and decoding
    the resulting token with the same secret at any time inside the 24-hour
    validity window succeeds and returns the identity context unchanged. -/
theorem C1_token_roundtrip (secret : String) (I : UserData) (iat now : Int)
    (_hlo : iat ≤ now) (hhi : now < iat + validitySeconds) :
    decodeTokenStr secret now (.signed (jwtEncode secret (mkLoginPayload I iat)))
      = .ok (mkLoginPayload I iat)
    ∧ gateDecodeUser secret now (.signed (jwtEncode secret (mkLoginPayload I iat)))
      = some I := by
  have hfresh : ¬ (iat + validitySeconds ≤ now) := by omega
  constructor
  · simp [decodeTokenStr, jwtDecode, jwtEncode, mkLoginPayload, hfresh]
  · simp [gateDecodeUser, decodeTokenStr, jwtDecode, jwtEncode, mkLoginPayload, hfresh]

/-- Witness for C1 at the admin identity, issuance time 0, decode time 3600. -/
theorem C1_token_roundtrip_witness :
    decodeTokenStr SECRET_KEY 3600
        (.signed (jwtEncode SECRET_KEY (mkLoginPayload ⟨"admin", "administrator"⟩ 0)))
      = .ok (mkLoginPayload ⟨"admin", "administrator"⟩ 0)
    ∧ gateDecodeUser SECRET_KEY 3600
        (.signed (jwtEncode SECRET_KEY (mkLoginPayload ⟨"admin", "administrator"⟩ 0)))
      = some ⟨"admin", "administrator"⟩ :=
  C1_token_roundtrip SECRET_KEY ⟨"admin", "administrator"⟩ 0 3600
    (by decide) (by decide)

/-- C2 (amended): an absent header and a present-but-empty header value
    both yield 401 Token is missing!; a present non-empty header value
    whose decode path fails yields 401 Token is invalid!; the two failure
    messages are distinct. -/
theorem C2_gate_error_responses (ρ : Type) (f : UserData → ρ) (secret : String)
    (now : Int) (h : AuthHeader) :
    token_required secret now f none = .errorResp 401 "Token is missing!"
    ∧ (h.isEmptyVal = true →
        token_required secret now f (some h) = .errorResp 401 "Token is missing!")
    ∧ (h.isEmptyVal = false → gateDecodeUser secret now h.body = none →
        token_required secret now f (some h) = .errorResp 401 "Token is invalid!")
    ∧ "Token is missing!" ≠ "Token is invalid!" := by
  refine ⟨rfl, ?_, ?_, by decide⟩
  · intro he
    simp [token_required, he]
  · intro he hd
    simp [token_required, he, hd]

/-- Witness for C2 at a present non-empty garbage header value. -/
theorem C2_gate_error_responses_witness :
    token_required SECRET_KEY 0 (fun u => u.username) none
      = .errorResp 401 "Token is missing!"
    ∧ ((AuthHeader.mk false (.garbage "x")).isEmptyVal = true →
        token_required SECRET_KEY 0 (fun u => u.username)
          (some ⟨false, .garbage "x"⟩) = .errorResp 401 "Token is missing!")
    ∧ ((AuthHeader.mk false (.garbage "x")).isEmptyVal = false →
        gateDecodeUser SECRET_KEY 0 (AuthHeader.mk false (.garbage "x")).body = none →
        token_required SECRET_KEY 0 (fun u => u.username)
          (some ⟨false, .garbage "x"⟩) = .errorResp 401 "Token is invalid!")
    ∧ "Token is missing!" ≠ "Token is invalid!" :=
  C2_gate_error_responses String (fun u => u.username) SECRET_KEY 0
    ⟨false, .garbage "x"⟩

/-- C2 counterexample: the empty string is a present header value whose
    decode path fails, yet the gate answers Token is missing!, not
    Token is invalid! (the check at app.py line 22 treats a present empty
    value like an absent header). -/
theorem C2_empty_header_counterexample :
    gateDecodeUser SECRET_KEY 0 (AuthHeader.mk false (.garbage "")).body = none
    ∧ token_required SECRET_KEY 0 (fun u => u.username) (some ⟨false, .garbage ""⟩)
        = .errorResp 401 "Token is missing!"
    ∧ token_required SECRET_KEY 0 (fun u => u.username) (some ⟨false, .garbage ""⟩)
        ≠ .errorResp 401 "Token is invalid!" := by
  refine ⟨rfl, rfl, ?_⟩
  decide

/-- C3: each of the three seeded accounts logs in successfully with its
    password, receiving status 200, success, and a token that decodes to
    the account username and configured role. -/
theorem C3_seeded_account_logins (now : Int) :
    (login now "admin" "admin123"
        = ⟨200, true,
            some (jwtEncode SECRET_KEY (mkLoginPayload ⟨"admin", "administrator"⟩ now)),
            some ⟨"admin", "administrator"⟩, none⟩
      ∧ gateDecodeUser SECRET_KEY now
          (.signed (jwtEncode SECRET_KEY (mkLoginPayload ⟨"admin", "administrator"⟩ now)))
        = some ⟨"admin", "administrator"⟩)
    ∧ (login now "user" "user123"
        = ⟨200, true,
            some (jwtEncode SECRET_KEY (mkLoginPayload ⟨"user", "analyst"⟩ now)),
            some ⟨"user", "analyst"⟩, none⟩
      ∧ gateDecodeUser SECRET_KEY now
          (.signed (jwtEncode SECRET_KEY (mkLoginPayload ⟨"user", "analyst"⟩ now)))
        = some ⟨"user", "analyst"⟩)
    ∧ (login now "operator" "operator123"
        = ⟨200, true,
            some (jwtEncode SECRET_KEY (mkLoginPayload ⟨"operator", "operator"⟩ now)),
            some ⟨"operator", "operator"⟩, none⟩
      ∧ gateDecodeUser SECRET_KEY now
          (.signed (jwtEncode SECRET_KEY (mkLoginPayload ⟨"operator", "operator"⟩ now)))
        = some ⟨"operator", "operator"⟩) := by
  have hfresh : ¬ (now + validitySeconds ≤ now) := by
    unfold validitySeconds
    omega
  refine ⟨⟨rfl, ?_⟩, ⟨rfl, ?_⟩, ⟨rfl, ?_⟩⟩ <;>
    simp [gateDecodeUser, decodeTokenStr, jwtDecode, jwtEncode, mkLoginPayload, hfresh]

/-- C4: a login with an unknown username or a known username and a
    mismatched password returns the one 401 Invalid credentials response,
    so the two failure causes are indistinguishable to the caller. -/
theorem C4_login_failure_uniform (now : Int) (u p : String)
    (hbad : lookupStore users u = none
            ∨ ∃ r, lookupStore users u = some r ∧ r.password ≠ p) :
    login now u p = invalidCredentialsResp
    ∧ login now u p = ⟨401, false, none, none, some "Invalid credentials"⟩ := by
  rcases hbad with hnone | ⟨r, hr, hp⟩
  · constructor <;> simp [login, loginWith, hnone, invalidCredentialsResp]
  · constructor <;> simp [login, loginWith, hr, hp, invalidCredentialsResp]

/-- Witness for C4 at an unknown username. -/
theorem C4_login_failure_uniform_witness :
    login 0 "mallory" "x" = invalidCredentialsResp
    ∧ login 0 "mallory" "x" = ⟨401, false, none, none, some "Invalid credentials"⟩ :=
  C4_login_failure_uniform 0 "mallory" "x" (Or.inl rfl)

/-- C5: changing any single character of the signature segment of a valid
    token makes decode fail, at any time, with a bad-signature error (which
    the gate reports as InvalidToken). -/
theorem C5_signature_tamper_detected (secret : String) (now now2 : Int)
    (t : SignedToken) (p : Payload)
    (hvalid : decodeTokenStr secret now (.signed t) = .ok p)
    (i : Nat) (c : Char) (hi : i < t.sig.data.length) (hc : c ≠ t.sig.data[i]) :
    decodeTokenStr secret now2 (.signed ⟨t.payload, ⟨t.sig.data.set i c⟩⟩)
      = .error .badSignature := by
  have hsig : t.sig = signTag secret t.payload := by
    by_contra hne
    simp [decodeTokenStr, jwtDecode, hne] at hvalid
  have hne : (⟨t.sig.data.set i c⟩ : String) ≠ signTag secret t.payload := by
    intro heq
    have hdata : t.sig.data.set i c = (signTag secret t.payload).data :=
      congrArg String.data heq
    rw [← hsig] at hdata
    have hib : i < (t.sig.data.set i c).length := by simpa using hi
    have hget : (t.sig.data.set i c)[i] = t.sig.data[i] :=
      List.getElem_of_eq hdata hib
    rw [List.getElem_set_self] at hget
    exact hc hget
  simp [decodeTokenStr, jwtDecode, hne]

/-- Witness for C5: the admin login token with the first signature
    character changed to x is rejected as badly signed. -/
theorem C5_signature_tamper_detected_witness :
    decodeTokenStr SECRET_KEY 0
        (.signed ⟨(jwtEncode SECRET_KEY (mkLoginPayload ⟨"admin", "administrator"⟩ 0)).payload,
          ⟨(jwtEncode SECRET_KEY (mkLoginPayload ⟨"admin", "administrator"⟩ 0)).sig.data.set 0 'x'⟩⟩)
      = .error .badSignature :=
  C5_signature_tamper_detected SECRET_KEY 0 0
    (jwtEncode SECRET_KEY (mkLoginPayload ⟨"admin", "administrator"⟩ 0))
    (mkLoginPayload ⟨"admin", "administrator"⟩ 0)
    rfl 0 'x' (by decide) (by decide)

/-- C6: decode fails on any token whose expiry claim is at or before the
    current time; when the token is correctly signed the failure is the
    expiry error; in particular a login token issued more than 24 hours
    ago is rejected as expired. -/
theorem C6_expired_token_rejected (secret : String) (now e iat : Int)
    (t : SignedToken) (I : UserData)
    (hexp : t.payload.exp = some e) (hnow : e ≤ now)
    (hiat : iat + validitySeconds < now) :
    (decodeTokenStr secret now (.signed t)).isOk = false
    ∧ (t.sig = signTag secret t.payload →
        decodeTokenStr secret now (.signed t) = .error .expired)
    ∧ decodeTokenStr secret now (.signed (jwtEncode secret (mkLoginPayload I iat)))
        = .error .expired := by
  refine ⟨?_, ?_, ?_⟩
  · by_cases hs : t.sig = signTag secret t.payload
    · simp [decodeTokenStr, jwtDecode, hs, hexp, hnow, Except.isOk, Except.toBool]
    · simp [decodeTokenStr, jwtDecode, hs, Except.isOk, Except.toBool]
  · intro hs
    simp [decodeTokenStr, jwtDecode, hs, hexp, hnow]
  · have hle : iat + validitySeconds ≤ now := le_of_lt hiat
    simp [decodeTokenStr, jwtDecode, jwtEncode, mkLoginPayload, hle]

/-- Witness for C6: the admin token issued at time 0 is rejected as
    expired at time 1000000. -/
theorem C6_expired_token_rejected_witness :
    (decodeTokenStr SECRET_KEY 1000000
        (.signed (jwtEncode SECRET_KEY (mkLoginPayload ⟨"admin", "administrator"⟩ 0)))).isOk
      = false
    ∧ ((jwtEncode SECRET_KEY (mkLoginPayload ⟨"admin", "administrator"⟩ 0)).sig
          = signTag SECRET_KEY
              (jwtEncode SECRET_KEY (mkLoginPayload ⟨"admin", "administrator"⟩ 0)).payload →
        decodeTokenStr SECRET_KEY 1000000
            (.signed (jwtEncode SECRET_KEY (mkLoginPayload ⟨"admin", "administrator"⟩ 0)))
          = .error .expired)
    ∧ decodeTokenStr SECRET_KEY 1000000
        (.signed (jwtEncode SECRET_KEY (mkLoginPayload ⟨"admin", "administrator"⟩ 0)))
        = .error .expired :=
  C6_expired_token_rejected SECRET_KEY 1000000 86400 0
    (jwtEncode SECRET_KEY (mkLoginPayload ⟨"admin", "administrator"⟩ 0))
    ⟨"admin", "administrator"⟩ rfl (by decide) (by decide)

/-- C7: when the presented header decodes to an identity context, the gate
    returns exactly the wrapped handler result on that context, unchanged,
    for every handler and result type. -/
theorem C7_handler_result_passthrough (ρ : Type) (f : UserData → ρ)
    (secret : String) (now : Int) (h : AuthHeader) (u : UserData)
    (hdec : gateDecodeUser secret now h.body = some u) :
    token_required secret now f (some h) = .result (f u) := by
  have hne : h.isEmptyVal = false := by
    cases hb : h.body with
    | garbage s => simp [gateDecodeUser, decodeTokenStr, hb] at hdec
    | signed t => simp [AuthHeader.isEmptyVal, hb]
  simp [token_required, hne, hdec]

/-- Witness for C7: the gate around the username projection passes the
    admin token through to the handler result. -/
theorem C7_handler_result_passthrough_witness :
    token_required SECRET_KEY 0 (fun u => u.username)
        (some ⟨true, .signed (jwtEncode SECRET_KEY (mkLoginPayload ⟨"admin", "administrator"⟩ 0))⟩)
      = .result "admin" :=
  C7_handler_result_passthrough String (fun u => u.username) SECRET_KEY 0
    ⟨true, .signed (jwtEncode SECRET_KEY (mkLoginPayload ⟨"admin", "administrator"⟩ 0))⟩
    ⟨"admin", "administrator"⟩ rfl

/-- C8: for a present non-empty header, every decode-path failure,
    including a well-signed unexpired token lacking the user claim, is
    normalized to 401 Token is invalid!; and for any present header the
    gate result is always one of the normalized outcomes. -/
theorem C8_decode_failures_normalized (ρ : Type) (f : UserData → ρ)
    (secret : String) (now : Int) (h : AuthHeader) :
    (h.isEmptyVal = false → gateDecodeUser secret now h.body = none →
      token_required secret now f (some h) = .errorResp 401 "Token is invalid!")
    ∧ (token_required secret now f (some h) = .errorResp 401 "Token is missing!"
       ∨ token_required secret now f (some h) = .errorResp 401 "Token is invalid!"
       ∨ ∃ u, gateDecodeUser secret now h.body = some u
           ∧ token_required secret now f (some h) = .result (f u)) := by
  constructor
  · intro he hd
    simp [token_required, he, hd]
  · by_cases he : h.isEmptyVal = true
    · exact Or.inl (by simp [token_required, he])
    · rw [Bool.not_eq_true] at he
      cases hd : gateDecodeUser secret now h.body with
      | none => exact Or.inr (Or.inl (by simp [token_required, he, hd]))
      | some u =>
        exact Or.inr (Or.inr ⟨u, by simp [hd], by simp [token_required, he, hd]⟩)

/-- Witness for C8: a correctly signed, unexpired token with no user claim
    is answered with 401 Token is invalid!. -/
theorem C8_decode_failures_normalized_witness :
    ((AuthHeader.mk false (.signed (jwtEncode SECRET_KEY ⟨none, some 86400⟩))).isEmptyVal = false →
      gateDecodeUser SECRET_KEY 0
          (AuthHeader.mk false (.signed (jwtEncode SECRET_KEY ⟨none, some 86400⟩))).body = none →
      token_required SECRET_KEY 0 (fun u => u.username)
          (some ⟨false, .signed (jwtEncode SECRET_KEY ⟨none, some 86400⟩)⟩)
        = .errorResp 401 "Token is invalid!")
    ∧ (token_required SECRET_KEY 0 (fun u => u.username)
          (some ⟨false, .signed (jwtEncode SECRET_KEY ⟨none, some 86400⟩)⟩)
        = .errorResp 401 "Token is missing!"
       ∨ token_required SECRET_KEY 0 (fun u => u.username)
          (some ⟨false, .signed (jwtEncode SECRET_KEY ⟨none, some 86400⟩)⟩)
        = .errorResp 401 "Token is invalid!"
       ∨ ∃ u, gateDecodeUser SECRET_KEY 0
            (AuthHeader.mk false (.signed (jwtEncode SECRET_KEY ⟨none, some 86400⟩))).body = some u
          ∧ token_required SECRET_KEY 0 (fun u => u.username)
              (some ⟨false, .signed (jwtEncode SECRET_KEY ⟨none, some 86400⟩)⟩)
            = .result u.username) :=
  C8_decode_failures_normalized String (fun u => u.username) SECRET_KEY 0
    ⟨false, .signed (jwtEncode SECRET_KEY ⟨none, some 86400⟩)⟩

/-- C9: the login handler, the gate around any handler, the gated
    dashboard endpoint and the health endpoint all leave the shared
    process state, the user store and the secret key, unchanged. -/
theorem C9_state_never_mutated (s : ServerState) (now : Int) (un pw : String)
    (ρ : Type) (f : UserData → ρ) (hd : Option AuthHeader) :
    (loginS s now un pw).1 = s
    ∧ (gateS s now f hd).1 = s
    ∧ (dashboardS s now hd).1 = s
    ∧ (healthS s).1 = s :=
  ⟨rfl, rfl, rfl, rfl⟩

/-- C10: two validly signed unexpired tokens that differ only in the role
    claim are both admitted by the gate around any handler, and the gated
    dashboard endpoint answers both with the same response: admission
    never depends on the role. -/
theorem C10_gate_role_blind (ρ : Type) (f : UserData → ρ) (secret : String)
    (now e : Int) (u r1 r2 : String) (b1 b2 : Bool) (hfresh : now < e) :
    token_required secret now f
        (some ⟨b1, .signed (jwtEncode secret ⟨some ⟨u, r1⟩, some e⟩)⟩)
      = .result (f ⟨u, r1⟩)
    ∧ token_required secret now f
        (some ⟨b2, .signed (jwtEncode secret ⟨some ⟨u, r2⟩, some e⟩)⟩)
      = .result (f ⟨u, r2⟩)
    ∧ token_required secret now get_dashboard
        (some ⟨b1, .signed (jwtEncode secret ⟨some ⟨u, r1⟩, some e⟩)⟩)
      = token_required secret now get_dashboard
        (some ⟨b2, .signed (jwtEncode secret ⟨some ⟨u, r2⟩, some e⟩)⟩) := by
  have hlt : ¬ (e ≤ now) := by omega
  refine ⟨?_, ?_, ?_⟩ <;>
    simp [token_required, AuthHeader.isEmptyVal, gateDecodeUser, decodeTokenStr,
      jwtDecode, jwtEncode, hlt, get_dashboard]

/-- Witness for C10 at the two distinct roles of the seeded accounts. -/
theorem C10_gate_role_blind_witness :
    token_required SECRET_KEY 0 (fun u => u.role)
        (some ⟨true, .signed (jwtEncode SECRET_KEY ⟨some ⟨"admin", "administrator"⟩, some 86400⟩)⟩)
      = .result "administrator"
    ∧ token_required SECRET_KEY 0 (fun u => u.role)
        (some ⟨true, .signed (jwtEncode SECRET_KEY ⟨some ⟨"admin", "analyst"⟩, some 86400⟩)⟩)
      = .result "analyst"
    ∧ token_required SECRET_KEY 0 get_dashboard
        (some ⟨true, .signed (jwtEncode SECRET_KEY ⟨some ⟨"admin", "administrator"⟩, some 86400⟩)⟩)
      = token_required SECRET_KEY 0 get_dashboard
        (some ⟨true, .signed (jwtEncode SECRET_KEY ⟨some ⟨"admin", "analyst"⟩, some 86400⟩)⟩) :=
  C10_gate_role_blind String (fun u => u.role) SECRET_KEY 0 86400
    "admin" "administrator" "analyst" true true (by decide)

end FusionCore
